import Mathlib

/-!
Verification model of the Azure Sphere port of the AWS IoT device SDK demo
(`shadow_demo_main.c` and `wolfssl_posix.c`).

The build defines `AzureSpherePlatform` (see the project CMake file), so the
platform-conditional blocks guarded by `#if !defined( AzureSpherePlatform )`
(peer verification and the max-fragment-length call) are compiled out; the
model follows that build.

Machine integers are modelled as `Nat`; all integral values handled by the
code are `uint32_t` / 32-bit `unsigned long` (the target is 32-bit ARM),
so `strtoul` clamps at `2 ^ 32 - 1` on overflow.
-/

/-! ### C numeric-string semantics: `strtoul` and decimal formatting -/

/-- Numeric value of a decimal digit character, as computed by the usual
`c - '0'` idiom. -/
def digitVal (c : Char) : Nat := c.toNat - 48

/-- Accumulator loop of `strtoul` base 10: consume leading decimal digits,
stop at the first non-digit. -/
def strtoulLoop : List Char → Nat → Nat
  | [], acc => acc
  | c :: rest, acc => if c.isDigit then strtoulLoop rest (acc * 10 + digitVal c) else acc

/-- Unclamped value of the leading decimal-digit run of a string. -/
def strtoulNat (s : List Char) : Nat := strtoulLoop s 0

/-- `ULONG_MAX` on the 32-bit target. -/
def ULONG_MAX : Nat := 2 ^ 32 - 1

/-- `( uint32_t ) strtoul( s, NULL, 10 )` on the 32-bit target: the decimal
value of the leading digit run, clamped at `ULONG_MAX` on overflow.  The
strings fed to it by the demo start directly with the digits, so the
whitespace/sign prefix handling of `strtoul` never comes into play and is
not modelled. -/
def strtoulC (s : List Char) : Nat := min (strtoulNat s) ULONG_MAX

/-- Little-endian decimal digit list of `n`, with explicit fuel so that the
recursion is structural (32 digits of fuel are more than any 32-bit value
needs). -/
def digitsRevFuel : Nat → Nat → List Nat
  | 0, _ => []
  | fuel + 1, n => if n = 0 then [] else n % 10 :: digitsRevFuel fuel (n / 10)

/-- Decimal digit characters of `n` in printing (big-endian) order. -/
def decChars (n : Nat) : List Char :=
  ((digitsRevFuel 32 n).reverse).map (fun d => Char.ofNat (48 + d))

/-- The character sequence `printf` emits for an unsigned decimal value
(`%d` / `%lu` with no padding): at least one digit, `"0"` for zero. -/
def decString (n : Nat) : List Char := if n = 0 then ['0'] else decChars n

/-- The character sequence `%06lu` emits: the decimal digits, zero-padded on
the left to at least six characters. -/
def pad6 (n : Nat) : List Char :=
  List.replicate (6 - (decString n).length) '0' ++ decString n

/-! ### Shadow reconciliation engine state (`shadow_demo_main.c`)

The process-wide mutable state of the demo: the file-scope statics
`currentPowerOnState`, `stateChanged`, `clientToken`, `eventCallbackError`,
and the function-scope static `currentVersion` of `updateDeltaHandler`. -/

structure ShadowState where
  currentPowerOnState : Nat
  stateChanged : Bool
  clientToken : Nat
  eventCallbackError : Bool
  currentVersion : Nat
  deriving DecidableEq, Repr

/-- Outcome of the vendored JSON parser on a delta payload, abstracting what
`JSON_Validate` and the two `JSON_Search` calls of `updateDeltaHandler`
return: whether the payload validates, and for each searched field the value
substring (`outValue`) when found.  JSON number values are maximal digit
runs, so the substring of a found field starts at its digits. -/
structure DeltaPayload where
  valid : Bool
  versionField : Option (List Char)
  powerOnField : Option (List Char)
  deriving DecidableEq, Repr

/-- `updateDeltaHandler` of `shadow_demo_main.c`, lines 236-354, translated
branch by branch.  Note the faithful quirk: when the version search succeeds
but the received version is not greater than `currentVersion`, the local
`result` is still `JSONSuccess` and `outValue` still points at the version
substring, so the final block parses that substring as the new power state. -/
def updateDeltaHandler (st : ShadowState) (p : DeltaPayload) : ShadowState :=
  if p.valid = false then
    -- JSON_Validate failed: both later `result == JSONSuccess` tests fail,
    -- `version` keeps its initial 0 which is never greater than
    -- `currentVersion`, so only the error latch is set (twice).
    { st with eventCallbackError := true }
  else
    match p.versionField with
    | none =>
      -- valid document without a "version" field: the version search fails,
      -- `version` stays 0, and the error latch is set.
      { st with eventCallbackError := true }
    | some vs =>
      let version := strtoulC vs
      if st.currentVersion < version then
        let st1 := { st with currentVersion := version }
        match p.powerOnField with
        | none => { st1 with eventCallbackError := true }
        | some ps =>
          let newState := strtoulC ps
          if newState ≠ st1.currentPowerOnState then
            { st1 with currentPowerOnState := newState, stateChanged := true }
          else st1
      else
        -- version not strictly greater: the message is supposed to be
        -- discarded, but `result` is still `JSONSuccess` from the version
        -- search and `outValue` still points at the version substring, so
        -- the final block runs with `newState = strtoul(version substring)`.
        let newState := strtoulC vs
        if newState ≠ st.currentPowerOnState then
          { st with currentPowerOnState := newState, stateChanged := true }
        else st

/-- Outcome of the vendored JSON parser on an update/accepted payload:
whether it validates, and the `clientToken` value substring when found
(coreJSON returns string values without their surrounding quotes). -/
structure AcceptedPayload where
  valid : Bool
  clientTokenField : Option (List Char)
  deriving DecidableEq, Repr

/-- `updateAcceptedHandler` of `shadow_demo_main.c`, lines 358-442: validate,
search `clientToken`, convert it and compare with the stored token.  Both the
match and the mismatch branch only log; the handler writes no state other
than the error latch. -/
def updateAcceptedHandler (st : ShadowState) (p : AcceptedPayload) : ShadowState :=
  if p.valid = false then
    { st with eventCallbackError := true }
  else
    match p.clientTokenField with
    | none => { st with eventCallbackError := true }
    | some _ts =>
      -- receivedToken = strtoul(outValue); compared against st.clientToken,
      -- equality and inequality are both merely logged.
      st

/-! ### Topic derivation (`loadTopicStrings`) -/

/-- The five shadow topic kinds derived in `loadTopicStrings`. -/
inductive ShadowTopicKind
  | delete
  | updateDelta
  | updateAccepted
  | updateRejected
  | update
  deriving DecidableEq, Repr

/-- `SHADOW_TOPIC_MAX_LENGTH` of `shadow_demo_main.c`. -/
def SHADOW_TOPIC_MAX_LENGTH : Nat := 256

/-- Modelled from the spec: the length of each derived topic string.  The
topic builder (`Shadow_GetTopicString` of the vendored shadow library, not
under `src/`) substitutes the device identifier into the fixed template
rooted at the reserved namespace prefix of scenario A,
`$aws/things/` + identifier + `/shadow/` + operation suffix. -/
def shadowTopicLength (kind : ShadowTopicKind) (idLength : Nat) : Nat :=
  match kind with
  | .delete => 12 + idLength + 14
  | .update => 12 + idLength + 14
  | .updateDelta => 12 + idLength + 20
  | .updateAccepted => 12 + idLength + 23
  | .updateRejected => 12 + idLength + 23

/-- Modelled from the spec: `Shadow_GetTopicString` (vendored shadow
library, not under `src/`) rejects identifiers whose substitution would
overflow the supplied buffer rather than silently truncating — it returns a
failure status and leaves the buffer unwritten.  `true` is the success
status. -/
def Shadow_GetTopicString (kind : ShadowTopicKind) (idLength bufferSize : Nat) : Bool :=
  shadowTopicLength kind idLength ≤ bufferSize

/-- `loadTopicStrings` of `shadow_demo_main.c`, lines 522-541.  `GetDeviceID`
(supplied by `get_device_id.c`, not under `src/`) is abstracted by its
outcome: `getDeviceIdOk` is whether it returned 0, `idLength` the length of
the identifier it stored.  The five `Shadow_GetTopicString` statuses are
computed and discarded exactly as in the source, which returns 0 whenever
`GetDeviceID` succeeded and -1 otherwise. -/
def loadTopicStrings (getDeviceIdOk : Bool) (idLength : Nat) : Int :=
  if getDeviceIdOk then
    let _ := Shadow_GetTopicString .delete idLength SHADOW_TOPIC_MAX_LENGTH
    let _ := Shadow_GetTopicString .updateDelta idLength SHADOW_TOPIC_MAX_LENGTH
    let _ := Shadow_GetTopicString .updateAccepted idLength SHADOW_TOPIC_MAX_LENGTH
    let _ := Shadow_GetTopicString .updateRejected idLength SHADOW_TOPIC_MAX_LENGTH
    let _ := Shadow_GetTopicString .update idLength SHADOW_TOPIC_MAX_LENGTH
    (0 : Int)
  else
    (-1 : Int)

/-! ### The reconciliation run (`shadow_demo_main`) -/

/-- Outcomes of the external calls made by one run of `shadow_demo_main`,
in program order.  Each `Bool` is whether that call returns `EXIT_SUCCESS`
(helpers) when it is made.  `stateChangedFlag` is the value the global
`stateChanged` holds when line 678 tests it (it may have been set by the
delta handler during the preceding publish's process loop), and
`callbackError` is the value of `eventCallbackError` at the final test on
line 733. -/
structure DemoEnv where
  loadOk : Bool
  establishOk : Bool
  pubDeleteOk : Bool
  subDeltaOk : Bool
  subAcceptedOk : Bool
  subRejectedOk : Bool
  pubDesiredOk : Bool
  stateChangedFlag : Bool
  pubReportedOk : Bool
  unsubDeltaOk : Bool
  unsubAcceptedOk : Bool
  unsubRejectedOk : Bool
  disconnectOk : Bool
  callbackError : Bool
  deriving DecidableEq, Repr

/-- Observable shape of one run: the exit status (`true` = `EXIT_SUCCESS`)
and which of the cleanup-phase calls were reached. -/
structure DemoRun where
  success : Bool
  establishAttempted : Bool
  unsubDeltaAttempted : Bool
  unsubAcceptedAttempted : Bool
  unsubRejectedAttempted : Bool
  disconnectAttempted : Bool
  deriving DecidableEq, Repr

/-- `shadow_demo_main` of `shadow_demo_main.c`, lines 564-745, with every
external call replaced by its outcome from `env`.  The sequential
`returnStatus` gating is reproduced step for step; in particular each
unsubscribe runs only under `returnStatus == EXIT_SUCCESS`, and line 727
overwrites `returnStatus` with the disconnect status. -/
def shadow_demo_main (env : DemoEnv) : DemoRun :=
  if env.loadOk = false then
    -- loadTopicStrings() < 0: return EXIT_FAILURE before any network step.
    { success := false, establishAttempted := false, unsubDeltaAttempted := false,
      unsubAcceptedAttempted := false, unsubRejectedAttempted := false,
      disconnectAttempted := false }
  else if env.establishOk = false then
    -- EstablishMqttSession failed: the whole connected block is skipped,
    -- and the final eventCallbackError test cannot rescue EXIT_FAILURE.
    { success := false, establishAttempted := true, unsubDeltaAttempted := false,
      unsubAcceptedAttempted := false, unsubRejectedAttempted := false,
      disconnectAttempted := false }
  else
    -- Forward sequence, each step gated on returnStatus == EXIT_SUCCESS.
    let afterDelete := env.pubDeleteOk
    let afterSubDelta := afterDelete && env.subDeltaOk
    let afterSubAccepted := afterSubDelta && env.subAcceptedOk
    let afterSubRejected := afterSubAccepted && env.subRejectedOk
    let afterDesired := afterSubRejected && env.pubDesiredOk
    -- Reported publish only when stateChanged was observed true.
    let afterReported :=
      afterDesired && (if env.stateChangedFlag then env.pubReportedOk else true)
    -- Unwinding: each unsubscribe gated on returnStatus == EXIT_SUCCESS.
    let unsubDeltaAtt := afterReported
    let afterUnsubDelta := afterReported && env.unsubDeltaOk
    let unsubAcceptedAtt := afterUnsubDelta
    let afterUnsubAccepted := afterUnsubDelta && env.unsubAcceptedOk
    let unsubRejectedAtt := afterUnsubAccepted
    let _afterUnsubRejected := afterUnsubAccepted && env.unsubRejectedOk
    -- Line 727: returnStatus = DisconnectMqttSession(); the prior status is
    -- overwritten unconditionally.
    let afterDisconnect := env.disconnectOk
    let finalStatus := afterDisconnect && !env.callbackError
    { success := finalStatus, establishAttempted := true,
      unsubDeltaAttempted := unsubDeltaAtt,
      unsubAcceptedAttempted := unsubAcceptedAtt,
      unsubRejectedAttempted := unsubRejectedAtt,
      disconnectAttempted := true }

/-! ### Secure transport manager (`wolfssl_posix.c`) -/

/-- `SocketStatus_t` values distinguished by `convertToWolfsslStatus`. -/
inductive SocketStatus
  | SOCKETS_SUCCESS
  | SOCKETS_INVALID_PARAMETER
  | SOCKETS_DNS_FAILURE
  | SOCKETS_CONNECT_FAILURE
  | SOCKETS_OTHER
  deriving DecidableEq, Repr

/-- `WolfsslStatus_t` of `wolfssl_posix.h`. -/
inductive WolfsslStatus
  | WOLFSSL_SUCCEED
  | WOLFSSL_INVALID_PARAMETER
  | WOLFSSL_INSUFFICIENT_MEMORY
  | WOLFSSL_INVALID_CREDENTIALS
  | WOLFSSL_HANDSHAKE_FAILED
  | WOLFSSL_API_ERROR
  | WOLFSSL_DNS_FAILURE
  | WOLFSSL_CONNECT_FAILURE
  deriving DecidableEq, Repr

/-- `convertToWolfsslStatus` of `wolfssl_posix.c`, lines 171-200: the default
initialisation to `WOLFSSL_INVALID_PARAMETER` stands for any unexpected
socket status. -/
def convertToWolfsslStatus (s : SocketStatus) : WolfsslStatus :=
  match s with
  | .SOCKETS_SUCCESS => .WOLFSSL_SUCCEED
  | .SOCKETS_INVALID_PARAMETER => .WOLFSSL_INVALID_PARAMETER
  | .SOCKETS_DNS_FAILURE => .WOLFSSL_DNS_FAILURE
  | .SOCKETS_CONNECT_FAILURE => .WOLFSSL_CONNECT_FAILURE
  | .SOCKETS_OTHER => .WOLFSSL_INVALID_PARAMETER

/-- The credential references of a `WolfsslCredentials_t`, each abstracted
together with the outcome of its import call: `none` means the filepath
pointer is `NULL`; `some ok` means the pointer is non-null and the
corresponding wolfSSL import call would return success `ok`. -/
structure CredentialsEnv where
  rootCa : Option Bool
  clientCert : Option Bool
  privateKey : Option Bool
  deriving DecidableEq, Repr

/-- Result of `setCredentials`: the final `sslStatus` (1 = success encoded as
`true`), plus which of the three import calls were actually made. -/
structure CredentialsOutcome where
  ok : Bool
  rootCaAttempted : Bool
  certAttempted : Bool
  keyAttempted : Bool
  deriving DecidableEq, Repr

/-- `setCredentials` of `wolfssl_posix.c`, lines 304-333: `sslStatus` starts
at 0; `setRootCa` runs only for a non-null root CA path; the client
certificate import runs when `sslStatus == 1` and its own path is non-null;
the private key import runs when `sslStatus == 1` (after the certificate
step) and its own path is non-null. -/
def setCredentials (env : CredentialsEnv) : CredentialsOutcome :=
  let s0 : Bool :=
    match env.rootCa with
    | none => false
    | some caOk => caOk
  let certAttempted := s0 && env.clientCert.isSome
  let s1 : Bool :=
    match env.clientCert with
    | none => s0
    | some certOk => if s0 then certOk else s0
  let keyAttempted := s1 && env.privateKey.isSome
  let s2 : Bool :=
    match env.privateKey with
    | none => s1
    | some keyOk => if s1 then keyOk else s1
  { ok := s2, rootCaAttempted := env.rootCa.isSome,
    certAttempted := certAttempted, keyAttempted := keyAttempted }

/-- Outcomes of the external calls made by `Wolfssl_Connect`:
`ctxProvided` / `credsProvided` are the null checks on `pNetworkContext` and
`pWolfsslCredentials`; the rest are the results the underlying calls would
return when reached. -/
structure ConnectEnv where
  ctxProvided : Bool
  credsProvided : Bool
  socketStatus : SocketStatus
  ctxNewOk : Bool
  credentials : CredentialsEnv
  sslNewOk : Bool
  setFdOk : Bool
  handshakeOk : Bool
  deriving DecidableEq, Repr

/-- Result of `Wolfssl_Connect`: the returned status and which of the gated
steps were reached. -/
structure ConnectResult where
  status : WolfsslStatus
  socketConnectAttempted : Bool
  ctxNewAttempted : Bool
  credentialsAttempted : Bool
  sslNewAttempted : Bool
  setFdAttempted : Bool
  handshakeAttempted : Bool
  deriving DecidableEq, Repr

/-- `Wolfssl_Connect` of `wolfssl_posix.c`, lines 403-561, for the
`AzureSpherePlatform` build (no `wolfSSL_CTX_set_verify`, no
`wolfSSL_get_verify_result`): every step runs only while
`returnStatus == WOLFSSL_SUCCEED`, and a failing step installs its error
status.  The trailing context-free / ssl-free cleanup does not change the
returned status and is not part of the observable result. -/
def Wolfssl_Connect (env : ConnectEnv) : ConnectResult :=
  let r1 : WolfsslStatus :=
    if env.ctxProvided = false then .WOLFSSL_INVALID_PARAMETER
    else if env.credsProvided = false then .WOLFSSL_INVALID_PARAMETER
    else .WOLFSSL_SUCCEED
  let sockAtt := r1 = .WOLFSSL_SUCCEED
  let r2 := if r1 = .WOLFSSL_SUCCEED then convertToWolfsslStatus env.socketStatus else r1
  let ctxAtt := r2 = .WOLFSSL_SUCCEED
  let r3 :=
    if r2 = .WOLFSSL_SUCCEED then
      if env.ctxNewOk then r2 else .WOLFSSL_API_ERROR
    else r2
  let credAtt := r3 = .WOLFSSL_SUCCEED
  let r4 :=
    if r3 = .WOLFSSL_SUCCEED then
      if (setCredentials env.credentials).ok then r3 else .WOLFSSL_INVALID_CREDENTIALS
    else r3
  let sslNewAtt := r4 = .WOLFSSL_SUCCEED
  let r5 :=
    if r4 = .WOLFSSL_SUCCEED then
      if env.sslNewOk then r4 else .WOLFSSL_API_ERROR
    else r4
  let fdAtt := r5 = .WOLFSSL_SUCCEED
  let r6 :=
    if r5 = .WOLFSSL_SUCCEED then
      if env.setFdOk then r5 else .WOLFSSL_API_ERROR
    else r5
  let hsAtt := r6 = .WOLFSSL_SUCCEED
  let r7 :=
    if r6 = .WOLFSSL_SUCCEED then
      if env.handshakeOk then r6 else .WOLFSSL_HANDSHAKE_FAILED
    else r6
  { status := r7,
    socketConnectAttempted := decide sockAtt,
    ctxNewAttempted := decide ctxAtt,
    credentialsAttempted := decide credAtt,
    sslNewAttempted := decide sslNewAtt,
    setFdAttempted := decide fdAtt,
    handshakeAttempted := decide hsAtt }

/-- Inputs of one `Wolfssl_Send` call: whether `pNetworkContext` is non-null,
whether its `pSsl` handle is non-null, and what `wolfSSL_write` would return
if invoked. -/
structure SendEnv where
  ctxProvided : Bool
  sslPresent : Bool
  writeResult : Int
  deriving DecidableEq, Repr

/-- Result of `Wolfssl_Send`: the returned byte count and whether the
underlying `wolfSSL_write` (the only operation that touches the socket) was
invoked. -/
structure SendResult where
  bytesSent : Int
  socketTouched : Bool
  deriving DecidableEq, Repr

/-- `Wolfssl_Send` of `wolfssl_posix.c`, lines 644-679: `bytesSent` starts at
0; a null context or a null `pSsl` handle only logs, leaving 0 to be
returned; otherwise the `wolfSSL_write` result is returned as is. -/
def Wolfssl_Send (env : SendEnv) : SendResult :=
  if env.ctxProvided = false then
    { bytesSent := 0, socketTouched := false }
  else if env.sslPresent then
    { bytesSent := env.writeResult, socketTouched := true }
  else
    { bytesSent := 0, socketTouched := false }

/-! ### The reported document and its parse (`SHADOW_REPORTED_JSON`)

The template of `shadow_demo_main.c`, lines 132-140, split at its two format
specifiers (`\x7b` and `\x7d` are the brace characters of the JSON text). -/

/-- Template text before the `%01d` of the power state. -/
def rjHead : List Char := "\x7b\"state\":\x7b\"reported\":\x7b\"powerOn\":".toList

/-- Template text between the `%01d` and the `%06lu` of the token. -/
def rjMid : List Char := "\x7d\x7d,\"clientToken\":\"".toList

/-- Template text after the `%06lu`. -/
def rjSuffix : List Char := "\"\x7d".toList

/-- The reported document `snprintf` produces from power state `p` and token
`t`: `%01d` emits the plain decimal digits of `p` (minimum width 1) and
`%06lu` the zero-padded decimal digits of `t`. -/
def reportedDoc (p t : Nat) : List Char :=
  rjHead ++ decString p ++ rjMid ++ pad6 t ++ rjSuffix

/-- Modelled from the spec: the Document Parser's
`Search(payload, length, fieldPath)` (vendored coreJSON `JSON_Search`, not
under `src/`) returns, for a found field, a pointer to its value inside the
payload — just past the key, its colon, and for string values the opening
quote.  On these fixed-shape documents that is the remainder of the text
after the first occurrence of the key-colon(-quote) pattern. -/
def searchAfter (pat : List Char) : List Char → Option (List Char)
  | [] => if pat.isEmpty then some [] else none
  | c :: rest =>
    if pat.isPrefixOf (c :: rest) then some ((c :: rest).drop pat.length)
    else searchAfter pat rest

/-- The pattern whose first occurrence precedes the `powerOn` number value. -/
def patPowerOn : List Char := "\"powerOn\":".toList

/-- The pattern whose first occurrence precedes the `clientToken` string
value (past the opening quote, as coreJSON strips the quotes). -/
def patClientToken : List Char := "\"clientToken\":\"".toList

/-- Extract the `state.reported.powerOn` field and convert it with
`strtoul`, as the demo's handlers do. -/
def parsePowerOn (doc : List Char) : Option Nat :=
  (searchAfter patPowerOn doc).map strtoulC

/-- Extract the `clientToken` field and convert it with `strtoul`. -/
def parseClientToken (doc : List Char) : Option Nat :=
  (searchAfter patClientToken doc).map strtoulC

/-- The conjunction of the forward-phase step statuses of one run: every
step from the delete publish through the conditional reported publish
returned `EXIT_SUCCESS` (a skipped reported publish counts as success). -/
def forwardOk (env : DemoEnv) : Bool :=
  env.pubDeleteOk && env.subDeltaOk && env.subAcceptedOk && env.subRejectedOk &&
    env.pubDesiredOk && (if env.stateChangedFlag then env.pubReportedOk else true)

/-! ## Theorems -/

/-- Helper: a single `updateDeltaHandler` invocation never decreases the
stored version. -/
theorem updateDeltaHandler_version_le (st : ShadowState) (p : DeltaPayload) :
    st.currentVersion ≤ (updateDeltaHandler st p).currentVersion := by
  rcases p with ⟨pv, pvf, ppf⟩
  cases pv
  · simp [updateDeltaHandler]
  · cases pvf with
    | none => simp [updateDeltaHandler]
    | some vs =>
      by_cases hlt : st.currentVersion < strtoulC vs
      · cases ppf with
        | none => simp [updateDeltaHandler, hlt]; omega
        | some ps =>
          by_cases hne : strtoulC ps = st.currentPowerOnState <;>
            simp [updateDeltaHandler, hlt, hne] <;> omega
      · simp only [updateDeltaHandler, if_neg hlt]
        simp
        split <;> simp

/-- Helper: the stored version is changed only by adopting the strictly
larger parsed version of the incoming delta. -/
theorem updateDeltaHandler_version_cases (st : ShadowState) (p : DeltaPayload) :
    (updateDeltaHandler st p).currentVersion = st.currentVersion ∨
      ∃ vs, p.versionField = some vs ∧ p.valid = true ∧
        st.currentVersion < strtoulC vs ∧
        (updateDeltaHandler st p).currentVersion = strtoulC vs := by
  rcases p with ⟨pv, pvf, ppf⟩
  cases pv
  · left; simp [updateDeltaHandler]
  · cases pvf with
    | none => left; simp [updateDeltaHandler]
    | some vs =>
      by_cases hlt : st.currentVersion < strtoulC vs
      · right
        refine ⟨vs, rfl, rfl, hlt, ?_⟩
        cases ppf with
        | none => simp [updateDeltaHandler, hlt]
        | some ps =>
          by_cases hne : strtoulC ps = st.currentPowerOnState <;>
            simp [updateDeltaHandler, hlt, hne]
      · left
        simp only [updateDeltaHandler, if_neg hlt]
        simp
        split <;> simp

/-- Claim C1 (code bug, failing input): with stored version 3, local
`powerOn` 0 and no prior flags, a valid delta carrying version 2 (and a
`state.powerOn` field of 1) is *not* fully discarded.  The stored version is
indeed left at 3, but because `result` still holds `JSONSuccess` from the
version search, the handler reparses the version substring as the power
state: local `powerOn` becomes 2 and `stateChanged` is set — contradicting
the claim (and the discard comment in the source) that local state and the
flag stay unchanged. -/
theorem updateDeltaHandler_stale_version_mutates :
    updateDeltaHandler
        { currentPowerOnState := 0, stateChanged := false, clientToken := 0,
          eventCallbackError := false, currentVersion := 3 }
        { valid := true, versionField := some ['2'], powerOnField := some ['1'] } =
      { currentPowerOnState := 2, stateChanged := true, clientToken := 0,
        eventCallbackError := false, currentVersion := 3 } := by decide

/-- Claim C3: across any sequence of delta payloads the stored shadow
version never decreases, and a single invocation changes it only when the
incoming delta's parsed version strictly exceeds it, in which case exactly
that larger value is adopted. -/
theorem shadow_version_monotonic (st : ShadowState) (ps : List DeltaPayload) :
    st.currentVersion ≤ (ps.foldl updateDeltaHandler st).currentVersion ∧
    ∀ q st0, (updateDeltaHandler st0 q).currentVersion = st0.currentVersion ∨
      ∃ vs, q.versionField = some vs ∧ q.valid = true ∧
        st0.currentVersion < strtoulC vs ∧
        (updateDeltaHandler st0 q).currentVersion = strtoulC vs := by
  constructor
  · induction ps generalizing st with
    | nil => simp
    | cons q qs ih =>
      exact le_trans (updateDeltaHandler_version_le st q) (ih _)
  · exact fun q st0 => updateDeltaHandler_version_cases st0 q

/-- Claim C10: the accepted-document handler never modifies the local shadow
state — power state, stored version, `stateChanged` and the pending token
are all unchanged for every payload — and the error latch afterwards is the
old latch joined with invalid-JSON or missing-`clientToken`; a mere token
mismatch never sets it. -/
theorem updateAcceptedHandler_frame (st : ShadowState) (p : AcceptedPayload) :
    (updateAcceptedHandler st p).currentPowerOnState = st.currentPowerOnState ∧
    (updateAcceptedHandler st p).currentVersion = st.currentVersion ∧
    (updateAcceptedHandler st p).stateChanged = st.stateChanged ∧
    (updateAcceptedHandler st p).clientToken = st.clientToken ∧
    (updateAcceptedHandler st p).eventCallbackError =
      (st.eventCallbackError || !p.valid || p.clientTokenField.isNone) := by
  rcases p with ⟨pv, ptf⟩
  cases pv <;> cases ptf <;> simp [updateAcceptedHandler]

/-- Claim C2 (counterexample): a run in which the delete publish fails but
the session was established, the disconnect succeeds and no callback error
was latched still returns `EXIT_SUCCESS`, because line 727 overwrites the
forward-phase failure with the disconnect status — refuting the claim that
any forward-step failure forces a failed run. -/
theorem shadow_demo_main_masks_forward_failure :
    (shadow_demo_main
        { loadOk := true, establishOk := true, pubDeleteOk := false,
          subDeltaOk := true, subAcceptedOk := true, subRejectedOk := true,
          pubDesiredOk := true, stateChangedFlag := true, pubReportedOk := true,
          unsubDeltaOk := true, unsubAcceptedOk := true, unsubRejectedOk := true,
          disconnectOk := true, callbackError := false }).success = true := by decide

/-- Claim C2 (amended): the run succeeds iff topic loading, session
establishment and the final disconnect all succeed and the callback-error
latch is unset; the forward-phase statuses only decide which later steps are
attempted, because the disconnect status overwrites `returnStatus`. -/
theorem shadow_demo_main_success_iff (env : DemoEnv) :
    (shadow_demo_main env).success = true ↔
      env.loadOk = true ∧ env.establishOk = true ∧ env.disconnectOk = true ∧
        env.callbackError = false := by
  rcases env with ⟨a, b, c, d, e, f, g, h, i, j, k, l, m, n⟩
  revert a b c d e f g h i j k l m n
  decide

/-- Claim C7 (counterexample): with every forward step succeeding, a failure
of the update/delta unsubscribe prevents the update/accepted and
update/rejected unsubscribes from being attempted at all — unwinding is
gated, not best-effort. -/
theorem shadow_demo_main_unsub_not_best_effort :
    (shadow_demo_main
        { loadOk := true, establishOk := true, pubDeleteOk := true,
          subDeltaOk := true, subAcceptedOk := true, subRejectedOk := true,
          pubDesiredOk := true, stateChangedFlag := false, pubReportedOk := true,
          unsubDeltaOk := false, unsubAcceptedOk := true, unsubRejectedOk := true,
          disconnectOk := true, callbackError := false }).unsubDeltaAttempted = true ∧
    (shadow_demo_main
        { loadOk := true, establishOk := true, pubDeleteOk := true,
          subDeltaOk := true, subAcceptedOk := true, subRejectedOk := true,
          pubDesiredOk := true, stateChangedFlag := false, pubReportedOk := true,
          unsubDeltaOk := false, unsubAcceptedOk := true, unsubRejectedOk := true,
          disconnectOk := true, callbackError := false }).unsubAcceptedAttempted = false ∧
    (shadow_demo_main
        { loadOk := true, establishOk := true, pubDeleteOk := true,
          subDeltaOk := true, subAcceptedOk := true, subRejectedOk := true,
          pubDesiredOk := true, stateChangedFlag := false, pubReportedOk := true,
          unsubDeltaOk := false, unsubAcceptedOk := true, unsubRejectedOk := true,
          disconnectOk := true, callbackError := false }).unsubRejectedAttempted = false := by
  decide

/-- Claim C7 (amended): the unsubscribes run in the order update/delta,
update/accepted, update/rejected, but each is attempted only while
`returnStatus` is still `EXIT_SUCCESS`: the delta unsubscribe requires the
whole forward phase to have succeeded, and each later unsubscribe
additionally requires the previous ones to have succeeded.  Only the
disconnect is unconditional once a session was established. -/
theorem shadow_demo_main_unsub_gating (env : DemoEnv) :
    (shadow_demo_main env).unsubDeltaAttempted =
      (env.loadOk && env.establishOk && forwardOk env) ∧
    (shadow_demo_main env).unsubAcceptedAttempted =
      (env.loadOk && env.establishOk && forwardOk env && env.unsubDeltaOk) ∧
    (shadow_demo_main env).unsubRejectedAttempted =
      (env.loadOk && env.establishOk && forwardOk env && env.unsubDeltaOk &&
        env.unsubAcceptedOk) ∧
    (shadow_demo_main env).disconnectAttempted = (env.loadOk && env.establishOk) := by
  rcases env with ⟨a, b, c, d, e, f, g, h, i, j, k, l, m, n⟩
  revert a b c d e f g h i j k l m n
  decide

/-- Claim C5 (counterexample): with a usable root CA, a non-null client
certificate and a *null* private key, `setCredentials` does import the
client certificate — refuting the claim that when exactly one of the two
references is null neither is imported. -/
theorem setCredentials_cert_without_key :
    (setCredentials
        { rootCa := some true, clientCert := some true, privateKey := none
        }).certAttempted = true := by decide

/-- Claim C5 (amended): the client certificate and the private key are gated
individually, not jointly: after a successful root CA import the certificate
is imported iff its own reference is non-null, and the private key is
imported iff its own reference is non-null and the certificate import was
either skipped (null reference) or succeeded. -/
theorem setCredentials_individual_gating (env : CredentialsEnv) :
    ((setCredentials env).certAttempted = true ↔
      env.rootCa = some true ∧ env.clientCert.isSome = true) ∧
    ((setCredentials env).keyAttempted = true ↔
      env.rootCa = some true ∧ env.privateKey.isSome = true ∧
        (env.clientCert = none ∨ env.clientCert = some true)) := by
  rcases env with ⟨rc, cc, pk⟩
  revert rc cc pk
  decide

/-- Claim C8 (code bug, failing input): `Wolfssl_Send` with a null network
context, and with a context whose `pSsl` handle is null, returns 0 — not the
negative error count the claim (and the function's own header comment:
"negative value on error") promises — while correctly leaving the socket
untouched. -/
theorem Wolfssl_Send_null_returns_zero :
    Wolfssl_Send { ctxProvided := false, sslPresent := false, writeResult := 7 } =
      { bytesSent := 0, socketTouched := false } ∧
    Wolfssl_Send { ctxProvided := true, sslPresent := false, writeResult := 7 } =
      { bytesSent := 0, socketTouched := false } := by decide

/-- Claim C6 (counterexample): a 250-character device identifier overflows
every derived topic (e.g. update/delta needs 282 bytes of the 256-byte
buffer), so the builder reports failure — yet `loadTopicStrings` discards
the five statuses and returns 0, and the run proceeds to attempt session
establishment instead of aborting. -/
theorem loadTopicStrings_overflow_not_rejected :
    Shadow_GetTopicString .updateDelta 250 SHADOW_TOPIC_MAX_LENGTH = false ∧
    loadTopicStrings true 250 = 0 ∧
    (shadow_demo_main
        { loadOk := loadTopicStrings true 250 == 0, establishOk := true,
          pubDeleteOk := true, subDeltaOk := true, subAcceptedOk := true,
          subRejectedOk := true, pubDesiredOk := true, stateChangedFlag := false,
          pubReportedOk := true, unsubDeltaOk := true, unsubAcceptedOk := true,
          unsubRejectedOk := true, disconnectOk := true,
          callbackError := false }).establishAttempted = true := by decide

/-- Claim C6 (amended): for every identifier whose substitution exceeds the
256-byte topic buffer, the underlying builder fails (without truncating, as
it leaves the buffer unwritten), but `loadTopicStrings` ignores the five
builder statuses: it still returns 0, so the run is not aborted by the
overflow. -/
theorem loadTopicStrings_ignores_overflow (idLength : Nat)
    (hover : SHADOW_TOPIC_MAX_LENGTH < shadowTopicLength .updateDelta idLength) :
    Shadow_GetTopicString .updateDelta idLength SHADOW_TOPIC_MAX_LENGTH = false ∧
    loadTopicStrings true idLength = 0 := by
  constructor
  · simp [Shadow_GetTopicString]
    omega
  · rfl

/-- Witness for the amended claim C6 at identifier length 250. -/
theorem loadTopicStrings_ignores_overflow_witness :
    SHADOW_TOPIC_MAX_LENGTH < shadowTopicLength .updateDelta 250 ∧
    (Shadow_GetTopicString .updateDelta 250 SHADOW_TOPIC_MAX_LENGTH = false ∧
      loadTopicStrings true 250 = 0) :=
  ⟨by decide, loadTopicStrings_ignores_overflow 250 (by decide)⟩

/-- Claim C4: whenever the parameter checks pass, the TCP connect succeeds
and the context allocation succeeds, a credentials value whose root CA
reference is null or whose root CA import fails makes `Wolfssl_Connect`
return `WOLFSSL_INVALID_CREDENTIALS` without ever attempting the TLS
handshake. -/
theorem Wolfssl_Connect_rootCa_mandatory (env : ConnectEnv)
    (hctx : env.ctxProvided = true) (hcreds : env.credsProvided = true)
    (hsock : env.socketStatus = .SOCKETS_SUCCESS) (hnew : env.ctxNewOk = true)
    (hca : env.credentials.rootCa = none ∨ env.credentials.rootCa = some false) :
    (Wolfssl_Connect env).status = .WOLFSSL_INVALID_CREDENTIALS ∧
    (Wolfssl_Connect env).handshakeAttempted = false := by
  rcases env with ⟨a, b, s, c, ⟨rc, cc, pk⟩, d, e, f⟩
  simp_all
  rcases hca with h | h <;> subst h <;>
    cases cc <;> cases pk <;>
      simp [Wolfssl_Connect, setCredentials, convertToWolfsslStatus]

/-- Witness for claim C4: a concrete environment with a null root CA
reference. -/
theorem Wolfssl_Connect_rootCa_mandatory_witness :
    (ConnectEnv.ctxProvided
        { ctxProvided := true, credsProvided := true,
          socketStatus := .SOCKETS_SUCCESS, ctxNewOk := true,
          credentials := { rootCa := none, clientCert := some true,
                           privateKey := some true },
          sslNewOk := true, setFdOk := true, handshakeOk := true } = true) ∧
    ((Wolfssl_Connect
        { ctxProvided := true, credsProvided := true,
          socketStatus := .SOCKETS_SUCCESS, ctxNewOk := true,
          credentials := { rootCa := none, clientCert := some true,
                           privateKey := some true },
          sslNewOk := true, setFdOk := true, handshakeOk := true }).status =
        .WOLFSSL_INVALID_CREDENTIALS ∧
      (Wolfssl_Connect
        { ctxProvided := true, credsProvided := true,
          socketStatus := .SOCKETS_SUCCESS, ctxNewOk := true,
          credentials := { rootCa := none, clientCert := some true,
                           privateKey := some true },
          sslNewOk := true, setFdOk := true, handshakeOk := true }).handshakeAttempted =
        false) :=
  ⟨rfl, Wolfssl_Connect_rootCa_mandatory _ rfl rfl rfl rfl (Or.inl rfl)⟩

/-! ### Round-trip infrastructure for claim C9 -/

/-- Helper: a successful search needs at least the pattern's length of
input. -/
theorem searchAfter_length_le {pat : List Char} :
    ∀ {l rest : List Char}, searchAfter pat l = some rest → pat.length ≤ l.length := by
  intro l
  induction l with
  | nil =>
    intro rest h
    by_cases hp : pat.isEmpty
    · simp [List.isEmpty_iff.mp hp]
    · simp [searchAfter, hp] at h
  | cons c l2 ih =>
    intro rest h
    by_cases hpre : pat.isPrefixOf (c :: l2) = true
    · have hp := List.isPrefixOf_iff_prefix.mp hpre
      exact hp.length_le
    · rw [searchAfter, if_neg hpre] at h
      exact Nat.le_succ_of_le (ih h)

/-- Helper: a prefix of `l ++ tail` that fits inside `l` is a prefix of
`l`. -/
theorem isPrefix_of_append_left {pat l tail : List Char}
    (hlen : pat.length ≤ l.length) (h : pat <+: l ++ tail) : pat <+: l := by
  have h1 : pat = (l ++ tail).take pat.length := List.prefix_iff_eq_take.mp h
  have h2 : (l ++ tail).take pat.length = l.take pat.length :=
    List.take_append_of_le_length hlen
  exact List.prefix_iff_eq_take.mpr (h1.trans h2)

/-- Helper: a search that finds its pattern inside `pre` finds the same
occurrence in `pre ++ tail`, with the tail appended to the returned
remainder. -/
theorem searchAfter_append {pat : List Char} :
    ∀ {pre rest : List Char} (tail : List Char),
      searchAfter pat pre = some rest →
      searchAfter pat (pre ++ tail) = some (rest ++ tail) := by
  intro pre
  induction pre with
  | nil =>
    intro rest tail h
    by_cases hp : pat.isEmpty
    · have hpat : pat = [] := List.isEmpty_iff.mp hp
      have hrest : rest = [] := by
        rw [searchAfter, if_pos hp] at h
        exact (Option.some.injEq _ _ ▸ h).symm
      subst hpat; subst hrest
      cases tail with
      | nil => simp [searchAfter]
      | cons c t => simp [searchAfter]
    · simp [searchAfter, hp] at h
  | cons c pre2 ih =>
    intro rest tail h
    by_cases hpre : pat.isPrefixOf (c :: pre2) = true
    · have hpfx := List.isPrefixOf_iff_prefix.mp hpre
      have hlen : pat.length ≤ (c :: pre2).length := hpfx.length_le
      have hrest : (c :: pre2).drop pat.length = rest := by
        rw [searchAfter, if_pos hpre] at h
        exact Option.some.injEq _ _ ▸ h
      have hpre3 : pat.isPrefixOf (c :: (pre2 ++ tail)) = true := by
        rw [ List.isPrefixOf_iff_prefix]
        rw [show c :: (pre2 ++ tail) = (c :: pre2) ++ tail from rfl]
        have hap := List.prefix_append (c :: pre2) tail
        exact hpfx.trans hap
      rw [List.cons_append, searchAfter, if_pos hpre3]
      rw [show c :: (pre2 ++ tail) = (c :: pre2) ++ tail from rfl,
          List.drop_append_of_le_length hlen, hrest]
    · have h2 : searchAfter pat pre2 = some rest := by
        rw [searchAfter, if_neg hpre] at h
        exact h
      have hlen : pat.length ≤ pre2.length := searchAfter_length_le h2
      have hpre3 : ¬pat.isPrefixOf (c :: (pre2 ++ tail)) = true := by
        intro hc
        apply hpre
        rw [ List.isPrefixOf_iff_prefix]
        have hfit : pat.length ≤ (c :: pre2).length := by
          rw [List.length_cons]
          exact Nat.le_succ_of_le hlen
        have hcast : pat <+: (c :: pre2) ++ tail := by
          rw [show (c :: pre2) ++ tail = c :: (pre2 ++ tail) from rfl]
          exact List.isPrefixOf_iff_prefix.mp hc
        exact isPrefix_of_append_left hfit hcast
      rw [List.cons_append, searchAfter, if_neg hpre3]
      exact ih tail h2

/-- Helper: `strtoulLoop` on a digit head accumulates it. -/
theorem strtoulLoop_cons_digit {c : Char} (h : c.isDigit = true)
    (l : List Char) (acc : Nat) :
    strtoulLoop (c :: l) acc = strtoulLoop l (acc * 10 + digitVal c) := by
  simp [strtoulLoop, h]

/-- Helper: `strtoulLoop` stops at a non-digit head. -/
theorem strtoulLoop_cons_stop {c : Char} (h : c.isDigit = false)
    (l : List Char) (acc : Nat) :
    strtoulLoop (c :: l) acc = acc := by
  simp [strtoulLoop, h]

/-- Helper: everything past the first non-digit is ignored by
`strtoulLoop`. -/
theorem strtoulLoop_append_stop {c : Char} (hc : c.isDigit = false) :
    ∀ (xs rest : List Char) (acc : Nat),
      strtoulLoop (xs ++ c :: rest) acc = strtoulLoop xs acc := by
  intro xs
  induction xs with
  | nil => intro rest acc; simp [strtoulLoop, hc]
  | cons x xs2 ih =>
    intro rest acc
    by_cases hx : x.isDigit = true
    · rw [List.cons_append, strtoulLoop_cons_digit hx, strtoulLoop_cons_digit hx]
      exact ih rest _
    · have hx2 : x.isDigit = false := by simpa using hx
      rw [List.cons_append, strtoulLoop_cons_stop hx2, strtoulLoop_cons_stop hx2]

/-- Helper: leading zeros do not change the parsed value. -/
theorem strtoulLoop_replicate_zero :
    ∀ (k : Nat) (l : List Char),
      strtoulLoop (List.replicate k '0' ++ l) 0 = strtoulLoop l 0 := by
  intro k
  induction k with
  | zero => intro l; simp
  | succ k ih =>
    intro l
    rw [List.replicate_succ, List.cons_append,
        strtoulLoop_cons_digit (by decide : ('0').isDigit = true)]
    have hz : (0 : Nat) * 10 + digitVal '0' = 0 := by decide
    rw [hz]
    exact ih l

/-- Helper: folding the little-endian digit list back in big-endian order
recovers the number. -/
theorem digitsRevFuel_foldr :
    ∀ (fuel n : Nat), n < 10 ^ fuel →
      (digitsRevFuel fuel n).foldr (fun d a => a * 10 + d) 0 = n := by
  intro fuel
  induction fuel with
  | zero =>
    intro n hn
    simp only [pow_zero, Nat.lt_one_iff] at hn
    subst hn
    simp [digitsRevFuel]
  | succ fuel ih =>
    intro n hn
    by_cases h0 : n = 0
    · simp [digitsRevFuel, h0]
    · have hdiv : n / 10 < 10 ^ fuel := by
        rw [Nat.div_lt_iff_lt_mul (by norm_num)]
        calc n < 10 ^ (fuel + 1) := hn
          _ = 10 ^ fuel * 10 := by ring
      rw [show digitsRevFuel (fuel + 1) n = n % 10 :: digitsRevFuel fuel (n / 10) by
            simp [digitsRevFuel, h0]]
      rw [List.foldr_cons, ih _ hdiv]
      omega

/-- Helper: every entry of the digit list is a decimal digit. -/
theorem digitsRevFuel_lt_ten :
    ∀ (fuel n : Nat), ∀ d ∈ digitsRevFuel fuel n, d < 10 := by
  intro fuel
  induction fuel with
  | zero => intro n d hd; simp [digitsRevFuel] at hd
  | succ fuel ih =>
    intro n d hd
    by_cases h0 : n = 0
    · simp [digitsRevFuel, h0] at hd
    · rw [show digitsRevFuel (fuel + 1) n = n % 10 :: digitsRevFuel fuel (n / 10) by
            simp [digitsRevFuel, h0]] at hd
      rcases List.mem_cons.mp hd with h | h
      · subst h; exact Nat.mod_lt _ (by norm_num)
      · exact ih _ _ h

/-- Helper: a value below `10 ^ k` has at most `k` decimal digits. -/
theorem digitsRevFuel_length_le :
    ∀ (fuel n k : Nat), n < 10 ^ k → (digitsRevFuel fuel n).length ≤ k := by
  intro fuel
  induction fuel with
  | zero => intro n k _; simp [digitsRevFuel]
  | succ fuel ih =>
    intro n k hn
    by_cases h0 : n = 0
    · simp [digitsRevFuel, h0]
    · cases k with
      | zero =>
        simp only [pow_zero, Nat.lt_one_iff] at hn
        exact absurd hn h0
      | succ k =>
        rw [show digitsRevFuel (fuel + 1) n = n % 10 :: digitsRevFuel fuel (n / 10) by
              simp [digitsRevFuel, h0]]
        rw [List.length_cons]
        have hdiv : n / 10 < 10 ^ k := by
          rw [Nat.div_lt_iff_lt_mul (by norm_num)]
          calc n < 10 ^ (k + 1) := hn
            _ = 10 ^ k * 10 := by ring
        exact Nat.succ_le_succ (ih _ _ hdiv)

/-- Helper: the character of a decimal digit is a digit character. -/
theorem charOfDigit_isDigit {d : Nat} (hd : d < 10) :
    (Char.ofNat (48 + d)).isDigit = true := by
  interval_cases d <;> decide

/-- Helper: the numeric value of a decimal digit's character is the
digit. -/
theorem charOfDigit_val {d : Nat} (hd : d < 10) :
    digitVal (Char.ofNat (48 + d)) = d := by
  interval_cases d <;> decide

/-- Helper: `strtoulLoop` on a digit-character list computes the left fold
of the digits. -/
theorem strtoulLoop_map_digits :
    ∀ (R : List Nat), (∀ d ∈ R, d < 10) → ∀ acc : Nat,
      strtoulLoop (R.map (fun d => Char.ofNat (48 + d))) acc =
        R.foldl (fun a d => a * 10 + d) acc := by
  intro R
  induction R with
  | nil => intro _ acc; simp [strtoulLoop]
  | cons d R2 ih =>
    intro hR acc
    have hd : d < 10 := hR d (List.mem_cons_self _ _)
    rw [List.map_cons, strtoulLoop_cons_digit (charOfDigit_isDigit hd),
        charOfDigit_val hd, List.foldl_cons]
    exact ih (fun x hx => hR x (List.mem_cons_of_mem _ hx)) _

/-- Helper: parsing the printed decimal digits recovers the number. -/
theorem strtoulLoop_decString {n : Nat} (hn : n < 10 ^ 32) :
    strtoulLoop (decString n) 0 = n := by
  by_cases h0 : n = 0
  · subst h0; decide
  · rw [decString, if_neg h0, decChars]
    rw [strtoulLoop_map_digits _
      (fun d hd => digitsRevFuel_lt_ten 32 n d (List.mem_reverse.mp hd)) 0]
    rw [List.foldl_reverse]
    exact digitsRevFuel_foldr 32 n hn

/-- Helper: values below `10 ^ k` print with at most `k` characters (at
least one). -/
theorem decString_length_le {n k : Nat} (hk : 1 ≤ k) (hn : n < 10 ^ k) :
    (decString n).length ≤ k := by
  by_cases h0 : n = 0
  · subst h0; simpa [decString] using hk
  · rw [decString, if_neg h0, decChars]
    rw [List.length_map, List.length_reverse]
    exact digitsRevFuel_length_le 32 n k hn

/-- Helper: `%06lu` output has exactly six characters for values up to
999999. -/
theorem pad6_length {t : Nat} (ht : t ≤ 999999) : (pad6 t).length = 6 := by
  have h1 : (decString t).length ≤ 6 :=
    decString_length_le (by norm_num) (by norm_num; omega)
  rw [pad6, List.length_append, List.length_replicate]
  omega

/-- Helper: parsing a zero-padded token terminated by the closing quote
recovers the token. -/
theorem strtoulC_pad6 {t : Nat} (ht : t ≤ 999999) (rest : List Char) :
    strtoulC (pad6 t ++ '"' :: rest) = t := by
  have hq : ('"').isDigit = false := by decide
  rw [strtoulC, strtoulNat, pad6, List.append_assoc,
      strtoulLoop_replicate_zero, strtoulLoop_append_stop hq]
  rw [strtoulLoop_decString (by norm_num; omega : t < 10 ^ 32)]
  have hmax : t ≤ ULONG_MAX := by
    rw [show ULONG_MAX = 4294967295 by norm_num [ULONG_MAX]]
    omega
  exact Nat.min_eq_left hmax

/-- Helper: a single digit character followed by a non-digit parses to that
digit's value. -/
theorem strtoulC_digit_stop {c1 c2 : Char} (h1 : c1.isDigit = true)
    (h2 : c2.isDigit = false) (l : List Char) :
    strtoulC (c1 :: c2 :: l) = digitVal c1 := by
  rw [strtoulC, strtoulNat, strtoulLoop_cons_digit h1, strtoulLoop_cons_stop h2]
  have hv : digitVal c1 ≤ ULONG_MAX := by
    have hc : c1.toNat < 4294967296 := by
      simpa [Char.toNat, UInt32.size] using c1.val.toNat_lt_size
    rw [show ULONG_MAX = 4294967295 by norm_num [ULONG_MAX]]
    rw [digitVal]
    omega
  simpa using Nat.min_eq_left hv

/-- Helper: the round-trip for a fixed power-state digit character. -/
theorem roundtrip_core {c : Char} {p : Nat} (t : Nat) (ht : t ≤ 999999)
    (hdec : decString p = [c])
    (hc1 : c.isDigit = true) (hc2 : digitVal c = p)
    (hsP : searchAfter patPowerOn (rjHead ++ [c] ++ rjMid) = some ([c] ++ rjMid))
    (hsT : searchAfter patClientToken (rjHead ++ [c] ++ rjMid) = some []) :
    parsePowerOn (reportedDoc p t) = some p ∧
      parseClientToken (reportedDoc p t) = some t := by
  have hdoc : reportedDoc p t = (rjHead ++ [c] ++ rjMid) ++ (pad6 t ++ rjSuffix) := by
    rw [reportedDoc, hdec]
    simp [List.append_assoc]
  have hmid : rjMid = '\x7d' :: "\x7d,\"clientToken\":\"".toList := by decide
  constructor
  · rw [parsePowerOn, hdoc, searchAfter_append _ hsP]
    rw [Option.map_some']
    have hshape : ([c] ++ rjMid) ++ (pad6 t ++ rjSuffix) =
        c :: '\x7d' :: ("\x7d,\"clientToken\":\"".toList ++ (pad6 t ++ rjSuffix)) := by
      rw [hmid]
      simp
    rw [hshape, strtoulC_digit_stop hc1 (by decide), hc2]
  · rw [parseClientToken, hdoc, searchAfter_append _ hsT]
    rw [Option.map_some', List.nil_append]
    have hsuf : rjSuffix = '"' :: ['\x7d'] := by decide
    rw [hsuf, strtoulC_pad6 ht]

/-- Claim C9: for every property value `p` in 0..9 and token `t` in
0..999999, the reported document embeds `p` as exactly one decimal digit and
`t` as exactly six zero-padded decimal digits, and parsing the document back
(unsigned-decimal conversion of the `state.reported.powerOn` and
`clientToken` fields) recovers the same `p` and `t`. -/
theorem reported_roundtrip (p t : Nat) (hp : p ≤ 9) (ht : t ≤ 999999) :
    (decString p).length = 1 ∧ (pad6 t).length = 6 ∧
    parsePowerOn (reportedDoc p t) = some p ∧
    parseClientToken (reportedDoc p t) = some t := by
  have h6 := pad6_length ht
  interval_cases p
  · exact ⟨by decide, h6,
      roundtrip_core (c := '0') t ht (by decide) (by decide) (by decide)
        (by decide) (by decide)⟩
  · exact ⟨by decide, h6,
      roundtrip_core (c := '1') t ht (by decide) (by decide) (by decide)
        (by decide) (by decide)⟩
  · exact ⟨by decide, h6,
      roundtrip_core (c := '2') t ht (by decide) (by decide) (by decide)
        (by decide) (by decide)⟩
  · exact ⟨by decide, h6,
      roundtrip_core (c := '3') t ht (by decide) (by decide) (by decide)
        (by decide) (by decide)⟩
  · exact ⟨by decide, h6,
      roundtrip_core (c := '4') t ht (by decide) (by decide) (by decide)
        (by decide) (by decide)⟩
  · exact ⟨by decide, h6,
      roundtrip_core (c := '5') t ht (by decide) (by decide) (by decide)
        (by decide) (by decide)⟩
  · exact ⟨by decide, h6,
      roundtrip_core (c := '6') t ht (by decide) (by decide) (by decide)
        (by decide) (by decide)⟩
  · exact ⟨by decide, h6,
      roundtrip_core (c := '7') t ht (by decide) (by decide) (by decide)
        (by decide) (by decide)⟩
  · exact ⟨by decide, h6,
      roundtrip_core (c := '8') t ht (by decide) (by decide) (by decide)
        (by decide) (by decide)⟩
  · exact ⟨by decide, h6,
      roundtrip_core (c := '9') t ht (by decide) (by decide) (by decide)
        (by decide) (by decide)⟩

/-- Witness for claim C9 at `p = 1`, `t = 42`. -/
theorem reported_roundtrip_witness :
    (1 : Nat) ≤ 9 ∧ (42 : Nat) ≤ 999999 ∧
    ((decString 1).length = 1 ∧ (pad6 42).length = 6 ∧
      parsePowerOn (reportedDoc 1 42) = some 1 ∧
      parseClientToken (reportedDoc 1 42) = some 42) :=
  ⟨by decide, by decide, reported_roundtrip 1 42 (by decide) (by decide)⟩
